import Mathlib

/-!
Verification of the boot/initialization and degraded-mode ("Safe Mode") core of
the ocean-playground repository.

The development shallowly embeds the relevant TypeScript/JavaScript source:

* `src/ocean-playground/src/state/useAppState.ts` — the zustand store variants
  (boot flags `isBooting`/`bootError`/`safeMode`, the setters
  `setBooting`/`setError`/`setSafe`/`setBoot`, `retryBoot`, `initializeBoot`);
* `src/ocean-playground/src/components/Scene.tsx` — the 8-second watchdog
  timer lifecycle and the WebGL capability probe `handleCanvasCreated`;
* `src/ocean-playground/src/utils/withTimeout.ts` — the promise timeout guard;
* `src/ocean-playground/src/components/objects/safeLoadGLTF.ts` — the guarded
  GLTF preloading and its batch variant;
* `src/ocean-playground/src/components/SafeObjectsCluster.tsx` and the
  `EnhancedBubbleSystem` component — the quality/instance-count policy.

Asynchrony is embedded by explicit state passing plus small event/step
relations; JavaScript promises are embedded as settlement outcomes, with the
standard event-loop ordering (microtasks run before timer macrotasks, timers
with equal due times run in registration order) made explicit where a claim
depends on it.
-/

namespace OceanBoot

/-- Boot error kinds, from the union type
`BootError = null | 'BOOT_TIMEOUT' | 'WEBGL_FAIL' | 'ASSET_TIMEOUT' | 'INIT_ERROR'`
in `useAppState.ts`.  The `null` alternative is embedded as `Option.none` of
`Option BootErrKind`. -/
inductive BootErrKind where
  | BOOT_TIMEOUT
  | WEBGL_FAIL
  | ASSET_TIMEOUT
  | INIT_ERROR
deriving DecidableEq, Repr

/-- The optional boot error tag (TypeScript `BootError`, where absence is `null`). -/
abbrev BootError := Option BootErrKind

/-- The three boot fields of the store that the boot state machine owns:
`isBooting`, `bootError`, `safeMode` (`useAppState.ts`). -/
structure BootState where
  isBooting : Bool
  bootError : BootError
  safeMode : Bool
deriving DecidableEq, Repr

/-- Initial boot state of the store: `isBooting: true, bootError: null,
safeMode: false` (`useAppState.ts` lines 80-82). -/
def bootInit : BootState := ⟨true, none, false⟩

/-- Setter `setBooting: (booting) => set({ isBooting: booting })` (`useAppState.ts` line 109). -/
def setBooting (b : Bool) (s : BootState) : BootState := { s with isBooting := b }

/-- Setter `setError: (error) => set({ bootError: error })` (`useAppState.ts` line 116). -/
def setError (e : BootError) (s : BootState) : BootState := { s with bootError := e }

/-- Setter `setSafe: (safe) => set({ safeMode: safe })` (`useAppState.ts` line 123). -/
def setSafe (b : Bool) (s : BootState) : BootState := { s with safeMode := b }

/-- Setter `setBoot: (isBooting, bootError = null, safeMode = null) => set((state) => ({
isBooting, bootError, safeMode: safeMode !== null ? safeMode : state.safeMode }))`
(`useAppState.ts` lines 489-493).  The defaultable `safeMode` argument is
embedded as `Option Bool`, `none` standing for the `null` default that keeps
the current value. -/
def setBoot (ib : Bool) (be : BootError) (sm : Option Bool) (s : BootState) : BootState :=
  { isBooting := ib, bootError := be, safeMode := sm.getD s.safeMode }

/-- The completion signal as every call-site issues it: `setBooting(false)`
(`Scene.tsx` `BootMark` line 27 and `handleCanvasCreated` line 138). -/
def completeBoot (s : BootState) : BootState := setBooting false s

/-- The failure signal as the unguarded call-sites issue it:
`setSafe(true); setError(e); setBooting(false)` (`Scene.tsx`
`handleCanvasCreated` catch branch, lines 146-148). -/
def failBoot (e : BootErrKind) (s : BootState) : BootState :=
  setBooting false (setError (some e) (setSafe true s))

/-- The failure signal as the watchdog call-site issues it: guarded by a
current-phase check, `if (isBooting) { setSafe(true); setError(e);
setBooting(false) }` (`Scene.tsx` lines 70-78). -/
def failGuarded (e : BootErrKind) (s : BootState) : BootState :=
  if s.isBooting then failBoot e s else s

/-- A transition call arriving at the store, as issued by the unguarded
call-sites (the store setters themselves carry no phase guard). -/
inductive BootCall where
  | complete
  | fail (e : BootErrKind)
deriving DecidableEq, Repr

/-- Apply one unguarded transition call. -/
def applyCall (s : BootState) : BootCall → BootState
  | .complete => completeBoot s
  | .fail e => failBoot e s

/-- Run a sequence of unguarded transition calls, first call first. -/
def runCalls (s : BootState) (cs : List BootCall) : BootState := cs.foldl applyCall s

/-- A transition call in which failures go through the watchdog-style
`isBooting` guard of `Scene.tsx` lines 70-78. -/
inductive GuardedCall where
  | complete
  | fail (e : BootErrKind)
deriving DecidableEq, Repr

/-- Apply one guarded transition call. -/
def applyGuarded (s : BootState) : GuardedCall → BootState
  | .complete => completeBoot s
  | .fail e => failGuarded e s

/-- Run a sequence of guarded transition calls, first call first. -/
def runGuarded (s : BootState) (cs : List GuardedCall) : BootState := cs.foldl applyGuarded s

/-- Watchdog deadline in milliseconds: `setTimeout(..., 8000)` (`Scene.tsx`
line 79, `useAppState.ts` line 622). -/
def WATCHDOG_MS : Nat := 8000

/-- State of one scene session: the wall clock, the boot fields of the store,
and the pending watchdog timer of `Scene.tsx` (`watchdogRef`), recorded as the
clock time at which it is due, or `none` once cleared or fired. -/
structure SceneState where
  now : Nat
  app : BootState
  watchdogDeadline : Option Nat
deriving DecidableEq, Repr

/-- Scene state at mount: clock zero, booting store, watchdog armed for
`WATCHDOG_MS` (the mount effect of `Scene.tsx` lines 61-79, run once thanks to
`initGuardRef`). -/
def sceneInit : SceneState := ⟨0, bootInit, some WATCHDOG_MS⟩

/-- Body of the watchdog timer callback (`Scene.tsx` lines 69-78): if the
store still reports `isBooting`, force Safe Mode with `BOOT_TIMEOUT`. -/
def watchdogFireBody (a : BootState) : BootState :=
  if a.isBooting then setBooting false (setError (some .BOOT_TIMEOUT) (setSafe true a)) else a

/-- Subscription of `Scene.tsx` lines 91-106: whenever the store leaves
`isBooting`, `clearTimeout` the watchdog. -/
def clearOnBootExit (s : SceneState) : SceneState :=
  if s.app.isBooting then s else { s with watchdogDeadline := none }

/-- Events a scene session processes: wall-clock time passing (during which a
due, uncleared watchdog timer fires), a completion signal, an unguarded
failure signal, and the store's `retryBoot` (which in the TypeScript store
resets the three boot fields and re-runs `initializeBoot`, a function that
performs only the protocol check — it arms no timer, and the mount effect of
`Scene.tsx` does not re-run because of `initGuardRef`). -/
inductive SceneEvent where
  | elapse (d : Nat)
  | complete
  | fail (e : BootErrKind)
  | retry
deriving DecidableEq, Repr

/-- Process one scene event. -/
def sceneStep (s : SceneState) : SceneEvent → SceneState
  | .elapse d =>
      let now2 := s.now + d
      match s.watchdogDeadline with
      | some dl => if dl ≤ now2 then ⟨now2, watchdogFireBody s.app, none⟩
                   else ⟨now2, s.app, some dl⟩
      | none => ⟨now2, s.app, none⟩
  | .complete => clearOnBootExit ⟨s.now, completeBoot s.app, s.watchdogDeadline⟩
  | .fail e => clearOnBootExit ⟨s.now, failBoot e s.app, s.watchdogDeadline⟩
  | .retry => ⟨s.now, ⟨true, none, false⟩, s.watchdogDeadline⟩

/-- Process a list of scene events in order. -/
def sceneRun (s : SceneState) (es : List SceneEvent) : SceneState := es.foldl sceneStep s

/-- Modal panels of the UI (`'about' | 'works' | 'contact' | null`). -/
inductive Panel where
  | about
  | works
  | contact
deriving DecidableEq, Repr

/-- Theme union `'default' | 'dark' | 'light'`. -/
inductive Theme where
  | default
  | dark
  | light
deriving DecidableEq, Repr

/-- Full application store of `useAppState.ts` (the non-function fields).
`hoveredObject` holds a TypeScript `any`, embedded as an abstract type
parameter `Obj`; `depth` is a JavaScript number, embedded as `ℚ`. -/
structure AppState (Obj : Type) where
  isBooting : Bool
  bootError : BootError
  safeMode : Bool
  protocolWarning : Bool
  depth : ℚ
  isDiving : Bool
  canResurface : Bool
  activePanel : Option Panel
  hoveredObject : Option Obj
  showUI : Bool
  welcomeMessageShown : Bool
  lowPowerMode : Bool
  prefersReducedMotion : Bool
  isMobile : Bool
  seed : Nat
  objectsVisible : Bool
  theme : Theme
deriving DecidableEq, Repr

/-- Function `retryBoot` of the JavaScript store variant (`useAppState.ts` line
501): `set({ isBooting: true, bootError: null, safeMode: false })`. -/
def retryBootJS {Obj : Type} (s : AppState Obj) : AppState Obj :=
  { s with isBooting := true, bootError := none, safeMode := false }

/-- Function `initializeBoot` of the TypeScript store variant (`useAppState.ts`
lines 225-240): sets `protocolWarning` when served via the `file:` protocol
(the remainder of the body is dev logging only — despite its comment "Boot
initialization with protocol check and watchdog", it arms no timer).
`protocolFile` embeds the environment test `window.location.protocol === 'file:'`. -/
def initializeBootTS {Obj : Type} (protocolFile : Bool) (s : AppState Obj) : AppState Obj :=
  if protocolFile then { s with protocolWarning := true } else s

/-- Function `retryBoot` of the TypeScript store variant (`useAppState.ts`
lines 137-148): resets the three boot fields, then calls `initializeBoot`. -/
def retryBootTS {Obj : Type} (protocolFile : Bool) (s : AppState Obj) : AppState Obj :=
  initializeBootTS protocolFile
    { s with isBooting := true, bootError := none, safeMode := false }

/-- Inputs of the WebGL capability probe, one flag per way the `try` block of
`handleCanvasCreated` (`Scene.tsx` lines 109-150) can throw: `gl` missing or
without `getContext`, `getContext()` returning nothing, the trivial
`clearColor`/`clear` exercise throwing, and the camera lacking
`updateProjectionMatrix`. -/
structure ProbeInput where
  hasGL : Bool
  hasContext : Bool
  clearThrows : Bool
  cameraValid : Bool
deriving DecidableEq, Repr

/-- Overall probe verdict: the `try` block runs to its end without throwing. -/
def probeOk (p : ProbeInput) : Bool :=
  p.hasGL && p.hasContext && !p.clearThrows && p.cameraValid

/-- Handler `handleCanvasCreated` (`Scene.tsx` lines 109-150) acting on the
boot fields: each check that fails jumps to the `catch` branch
`setSafe(true); setError('WEBGL_FAIL'); setBooting(false)`; when the whole
probe passes, only `setBooting(false)` runs. -/
def handleCanvasCreated (p : ProbeInput) (s : BootState) : BootState :=
  if !p.hasGL then failBoot .WEBGL_FAIL s
  else if !p.hasContext then failBoot .WEBGL_FAIL s
  else if p.clearThrows then failBoot .WEBGL_FAIL s
  else if !p.cameraValid then failBoot .WEBGL_FAIL s
  else setBooting false s

/-- JavaScript error value; only the `message` carried by `new Error(message)`
is observable to this core (`safeLoadGLTF.ts` matches on `error.message`). -/
structure JsError where
  message : String
deriving DecidableEq, Repr

/-- Error thrown by the guard on timeout: `new Error(label)`
(`withTimeout.ts` line 13). -/
def timeoutError (label : String) : JsError := ⟨label⟩

/-- Settlement of a JavaScript promise. -/
inductive Settled (T : Type) where
  | resolved (v : T)
  | rejected (e : JsError)
deriving DecidableEq, Repr

/-- Observable behaviour of the wrapped asynchronous operation, relative to
the moment `withTimeout` is invoked: already settled (its reaction runs as a
microtask, before any timer callback), settling at a later timer tick `t`
(a macrotask whose timer was registered before the guard's own timer), or
never settling. -/
inductive AsyncOp (T : Type) where
  | settled (r : Settled T)
  | settlesAt (t : Nat) (r : Settled T)
  | pending
deriving DecidableEq, Repr

/-- Delay actually used by `setTimeout(cb, ms)`: negative delays are clamped
to zero by the platform. -/
def effectiveDelay (ms : Int) : Nat := ms.toNat

/-- Guard `withTimeout(promise, ms, label)` (`withTimeout.ts` lines 5-27):
races the operation against `setTimeout(() => reject(new Error(label)), ms)`;
whichever settles the outer promise first wins, the loser is ignored (a
promise settles once; `clearTimeout` merely drops the stale timer).  Event
loop ordering embedded: an already-settled operation beats the timer (its
`.then` reaction is a microtask); an operation settling at timer tick `t`
beats the guard timer due at the same tick because its timer was registered
first. -/
def withTimeout {T : Type} (op : AsyncOp T) (ms : Int) (label : String) : Settled T :=
  match op with
  | .settled r => r
  | .settlesAt t r => if t ≤ effectiveDelay ms then r else .rejected (timeoutError label)
  | .pending => .rejected (timeoutError label)

/-- Function `safePreloadGLTF(path, timeoutMs)` (`safeLoadGLTF.ts` lines
9-55) acting on the boot fields: await the guarded preload (with label
`'ASSET_TIMEOUT'`); on success return `true` with the state untouched; on any
rejection classify by `error.message === 'ASSET_TIMEOUT'` into
`setError('ASSET_TIMEOUT')` or `setError('INIT_ERROR')`, then `setSafe(true)`
and return `false`.  `op` is the settlement behaviour of the preload
operation for the given path. -/
def safePreloadGLTF (op : AsyncOp Unit) (timeoutMs : Int) (s : BootState) :
    Bool × BootState :=
  match withTimeout op timeoutMs "ASSET_TIMEOUT" with
  | .resolved _ => (true, s)
  | .rejected e =>
      let s1 := if e.message = "ASSET_TIMEOUT"
                then setError (some .ASSET_TIMEOUT) s
                else setError (some .INIT_ERROR) s
      (false, setSafe true s1)

/-- Boolean outcome of one guarded preload (state-independent part of
`safePreloadGLTF`). -/
def safePreloadOk (op : AsyncOp Unit) (timeoutMs : Int) : Bool :=
  match withTimeout op timeoutMs "ASSET_TIMEOUT" with
  | .resolved _ => true
  | .rejected _ => false

/-- Per-path settlement map for one batch: the environment decides how each
path's preload behaves. -/
abbrev PreloadEnv := String → AsyncOp Unit

/-- Core of `batchPreloadGLTF` (`safeLoadGLTF.ts` lines 88-101):
`Promise.allSettled` over the individual guarded preloads (each one catches
all of its own errors, so every element fulfills and no failure aborts the
others), then the `forEach` that pushes `paths[index]` into `success` or
`failed` in index order.  State effects of the individual loads are threaded
in the same order. -/
def batchCore (env : PreloadEnv) (tms : Int) :
    List String → BootState → (List String × List String) × BootState
  | [], s => (([], []), s)
  | p :: rest, s =>
      let r1 := safePreloadGLTF (env p) tms s
      let r2 := batchCore env tms rest r1.2
      (if r1.1 then (p :: r2.1.1, r2.1.2) else (r2.1.1, p :: r2.1.2), r2.2)

/-- Function `batchPreloadGLTF(paths, individualTimeout, allowPartialFailure)`
(`safeLoadGLTF.ts` lines 83-115): partition the paths by individual outcome;
afterwards, if nothing succeeded and partial failure is not allowed,
`setSafe(true); setError('ASSET_TIMEOUT')`.  Total by construction — the
embedding of `Promise.allSettled` never rejects as a whole. -/
def batchPreloadGLTF (env : PreloadEnv) (paths : List String) (tms : Int)
    (allowPartialFailure : Bool) (s : BootState) :
    (List String × List String) × BootState :=
  let r := batchCore env tms paths s
  (r.1,
    if r.1.1.isEmpty && !allowPartialFailure
    then setError (some .ASSET_TIMEOUT) (setSafe true r.2)
    else r.2)

/-- Count of main interactive objects (`SafeObjectsCluster.tsx` line 132):
`safeMode ? 2 : (lowPowerMode ? 2 : (isMobile ? 3 : 3))`. -/
def mainObjectCount (safeMode lowPowerMode isMobile : Bool) : Nat :=
  if safeMode then 2 else if lowPowerMode then 2 else if isMobile then 3 else 3

/-- Count of decorative objects (`SafeObjectsCluster.tsx` line 133):
`safeMode ? 3 : (lowPowerMode ? 5 : (isMobile ? 8 : 12))`. -/
def decorativeCount (safeMode lowPowerMode isMobile : Bool) : Nat :=
  if safeMode then 3 else if lowPowerMode then 5 else if isMobile then 8 else 12

/-- Bubble instance count of the `EnhancedBubbleSystem` component:
`if (lowPowerMode) return 30; return isMobile ? 60 : 150` — its `useMemo`
depends only on `isMobile` and `lowPowerMode`; `safeMode` is not an input. -/
def bubbleCount (lowPowerMode isMobile : Bool) : Nat :=
  if lowPowerMode then 30 else if isMobile then 60 else 150

end OceanBoot

namespace OceanBoot

theorem applyGuarded_of_not_booting (s : BootState) (c : GuardedCall)
    (h : s.isBooting = false) : applyGuarded s c = s := by
  cases c with
  | complete =>
      cases s
      simp_all [applyGuarded, completeBoot, setBooting]
  | fail e =>
      simp [applyGuarded, failGuarded, h]

theorem applyGuarded_not_booting_after (s : BootState) (c : GuardedCall)
    (h : s.isBooting = true) : (applyGuarded s c).isBooting = false := by
  cases c with
  | complete => rfl
  | fail e => simp [applyGuarded, failGuarded, h, failBoot, setBooting, setError, setSafe]

theorem runGuarded_of_not_booting (s : BootState) (cs : List GuardedCall)
    (h : s.isBooting = false) : runGuarded s cs = s := by
  induction cs with
  | nil => rfl
  | cons c cs ih =>
      have hc := applyGuarded_of_not_booting s c h
      simp [runGuarded, List.foldl] at ih ⊢
      rw [hc]
      exact ih

theorem safePreloadGLTF_fst (op : AsyncOp Unit) (tms : Int) (s : BootState) :
    (safePreloadGLTF op tms s).1 = safePreloadOk op tms := by
  cases h : withTimeout op tms "ASSET_TIMEOUT" <;>
    simp [safePreloadGLTF, safePreloadOk, h]

theorem batchCore_partition (env : PreloadEnv) (tms : Int) (paths : List String) :
    ∀ s : BootState,
      (batchCore env tms paths s).1.1 = paths.filter (fun p => safePreloadOk (env p) tms) ∧
      (batchCore env tms paths s).1.2 = paths.filter (fun p => !(safePreloadOk (env p) tms)) := by
  induction paths with
  | nil => intro s; exact ⟨rfl, rfl⟩
  | cons p rest ih =>
      intro s
      obtain ⟨ih1, ih2⟩ := ih (safePreloadGLTF (env p) tms s).2
      cases hok : safePreloadOk (env p) tms <;>
        simp [batchCore, safePreloadGLTF_fst, hok, List.filter, ih1, ih2]

theorem length_filter_bool_split (f : String → Bool) (l : List String) :
    (l.filter f).length + (l.filter (fun p => !(f p))).length = l.length := by
  induction l with
  | nil => rfl
  | cons p rest ih =>
      cases hp : f p <;> simp [List.filter, hp] <;> omega

/-- Claim C1 (counterexample): starting from `Booting`, the sequence
"complete, then fail(WEBGL_FAIL)" — completion followed by the unguarded
failure path of `handleCanvasCreated` — does not leave the state at its value
after the first call: the late `fail` overwrites the completed state with
`Degraded`/`WEBGL_FAIL`/safe mode, because the store transitions themselves
carry no phase guard. -/
theorem boot_first_call_wins_cex :
    runCalls bootInit [BootCall.complete, BootCall.fail BootErrKind.WEBGL_FAIL] ≠
      runCalls bootInit [BootCall.complete] ∧
    runCalls bootInit [BootCall.complete] = ⟨false, none, false⟩ ∧
    runCalls bootInit [BootCall.complete, BootCall.fail BootErrKind.WEBGL_FAIL] =
      ⟨false, some BootErrKind.WEBGL_FAIL, true⟩ := by
  decide

/-- Claim C1 (amended): starting from `Booting`, for every sequence of
interleaved `complete()` and guarded `fail(e)` calls — failures routed through
the watchdog-style `if (isBooting)` check of `Scene.tsx` — only the first call
changes the boot state, and any such call issued when the phase is no longer
`Booting` is a no-op.  (The unguarded failure path is excluded: see the
counterexample.) -/
theorem boot_first_call_wins (c : GuardedCall) (cs : List GuardedCall) :
    runGuarded bootInit (c :: cs) = applyGuarded bootInit c ∧
    (∀ (s : BootState) (c2 : GuardedCall), s.isBooting = false → applyGuarded s c2 = s) := by
  constructor
  · have h1 : (applyGuarded bootInit c).isBooting = false :=
      applyGuarded_not_booting_after bootInit c rfl
    exact runGuarded_of_not_booting _ cs h1
  · exact fun s c2 h => applyGuarded_of_not_booting s c2 h

/-- Witness for the amended C1 theorem at a concrete sequence and a concrete
non-booting state. -/
theorem boot_first_call_wins_witness :
    runGuarded bootInit [GuardedCall.complete, GuardedCall.fail BootErrKind.WEBGL_FAIL] =
      applyGuarded bootInit GuardedCall.complete ∧
    applyGuarded ⟨false, none, false⟩ (GuardedCall.fail BootErrKind.INIT_ERROR) =
      ⟨false, none, false⟩ :=
  ⟨(boot_first_call_wins GuardedCall.complete [GuardedCall.fail BootErrKind.WEBGL_FAIL]).1,
   (boot_first_call_wins GuardedCall.complete []).2 ⟨false, none, false⟩
     (GuardedCall.fail BootErrKind.INIT_ERROR) rfl⟩

/-- Claim C2: if the armed watchdog deadline elapses while the phase is still
`Booting`, the state becomes `Degraded` with `BOOT_TIMEOUT` and the timer is
consumed; once the timer is gone the boot state never changes from time
passing alone (so the timeout is produced exactly once); and after a
`complete()` the timer is cleared, so the deadline passing later has no effect
on the boot state. -/
theorem watchdog_correct :
    (∀ (s : SceneState) (d dl : Nat), s.app.isBooting = true →
        s.watchdogDeadline = some dl → dl ≤ s.now + d →
        sceneStep s (SceneEvent.elapse d) =
          ⟨s.now + d, ⟨false, some BootErrKind.BOOT_TIMEOUT, true⟩, none⟩) ∧
    (∀ (s : SceneState) (d : Nat), s.watchdogDeadline = none →
        (sceneStep s (SceneEvent.elapse d)).app = s.app) ∧
    (∀ (s : SceneState) (d : Nat),
        (sceneStep (sceneStep s SceneEvent.complete) (SceneEvent.elapse d)).app =
          (sceneStep s SceneEvent.complete).app) := by
  refine ⟨?_, ?_, ?_⟩
  · intro s d dl h1 h2 h3
    simp [sceneStep, h2, h3, watchdogFireBody, h1, setBooting, setError, setSafe]
  · intro s d h
    simp [sceneStep, h]
  · intro s d
    simp [sceneStep, clearOnBootExit, completeBoot, setBooting]

/-- Witness for the C2 theorem: the fresh scene session times out at 8000 ms,
and a cleared timer changes nothing. -/
theorem watchdog_correct_witness :
    sceneInit.app.isBooting = true ∧
    sceneInit.watchdogDeadline = some 8000 ∧
    8000 ≤ sceneInit.now + 8000 ∧
    sceneStep sceneInit (SceneEvent.elapse 8000) =
      ⟨sceneInit.now + 8000, ⟨false, some BootErrKind.BOOT_TIMEOUT, true⟩, none⟩ ∧
    (sceneStep (⟨9000, ⟨false, some BootErrKind.BOOT_TIMEOUT, true⟩, none⟩ : SceneState)
        (SceneEvent.elapse 7)).app =
      (⟨9000, ⟨false, some BootErrKind.BOOT_TIMEOUT, true⟩, none⟩ : SceneState).app :=
  ⟨rfl, rfl, by decide, watchdog_correct.1 sceneInit 8000 8000 rfl rfl (by decide),
   watchdog_correct.2.1 ⟨9000, ⟨false, some BootErrKind.BOOT_TIMEOUT, true⟩, none⟩ 7 rfl⟩

/-- Claim C3 (code bug, evaluated): the first 8000 ms elapse brings the fresh
session to `Degraded`/`BOOT_TIMEOUT` with the timer consumed; `retryBoot` then
yields exactly `{Booting, no error, safe mode off}` — but no fresh
watchdog is armed (the TypeScript `initializeBoot` it calls arms no timer,
despite its "with protocol check and watchdog" comment, and `Scene.tsx`'s
mount effect is blocked by `initGuardRef`), so a second full deadline passes
with the session still stuck in `Booting` instead of degrading again. -/
theorem retry_arms_no_watchdog :
    sceneRun sceneInit [SceneEvent.elapse 8000] =
      ⟨8000, ⟨false, some BootErrKind.BOOT_TIMEOUT, true⟩, none⟩ ∧
    sceneRun sceneInit [SceneEvent.elapse 8000, SceneEvent.retry] =
      ⟨8000, ⟨true, none, false⟩, none⟩ ∧
    sceneRun sceneInit [SceneEvent.elapse 8000, SceneEvent.retry, SceneEvent.elapse 8000] =
      ⟨16000, ⟨true, none, false⟩, none⟩ := by
  decide

/-- Claim C4 (code bug, evaluated): the "Continue in Safe Mode" button invokes
`setBoot(false, null, false)`; from the `Degraded` state this yields
`{isBooting = false, bootError = none, safeMode = false}` — the
safe-mode flag is cleared, not preserved as the claim (and the button's own
label) requires. -/
theorem continue_in_safe_mode_clears_flag :
    setBoot false none (some false) ⟨false, some BootErrKind.BOOT_TIMEOUT, true⟩ =
      ⟨false, none, false⟩ ∧
    (setBoot false none (some false) ⟨false, some BootErrKind.BOOT_TIMEOUT, true⟩).safeMode ≠
      true := by
  decide

/-- Claim C5: for every wrapped operation and positive deadline, an operation
settling strictly before the deadline propagates its value or its error
unchanged, while an operation settling after the deadline, or never, yields a
rejection with the timeout error carrying the caller-supplied label. -/
theorem withTimeout_spec (T : Type) (ms : Int) (label : String) (hms : 0 < ms) :
    (∀ (t : Nat) (v : T), (t : Int) < ms →
        withTimeout (AsyncOp.settlesAt t (Settled.resolved v)) ms label =
          Settled.resolved v) ∧
    (∀ (t : Nat) (e : JsError), (t : Int) < ms →
        withTimeout (AsyncOp.settlesAt t (Settled.rejected e) : AsyncOp T) ms label =
          Settled.rejected e) ∧
    (∀ (t : Nat) (r : Settled T), ms < (t : Int) →
        withTimeout (AsyncOp.settlesAt t r) ms label =
          Settled.rejected (timeoutError label)) ∧
    withTimeout (AsyncOp.pending : AsyncOp T) ms label =
      Settled.rejected (timeoutError label) := by
  refine ⟨?_, ?_, ?_, rfl⟩
  · intro t v ht
    simp only [withTimeout, effectiveDelay]
    rw [if_pos (by omega)]
  · intro t e ht
    simp only [withTimeout, effectiveDelay]
    rw [if_pos (by omega)]
  · intro t r ht
    simp only [withTimeout, effectiveDelay]
    rw [if_neg (by omega)]

/-- Witness for the C5 theorem at the deadlines of the spec's sample races. -/
theorem withTimeout_spec_witness :
    (0 : Int) < 50 ∧
    withTimeout (AsyncOp.settlesAt 5 (Settled.resolved (42 : Nat))) 50 "TIMEOUT" =
      Settled.resolved 42 ∧
    withTimeout (AsyncOp.settlesAt 5 (Settled.rejected ⟨"boom"⟩) : AsyncOp Nat) 50 "TIMEOUT" =
      Settled.rejected ⟨"boom"⟩ ∧
    withTimeout (AsyncOp.settlesAt 50 (Settled.resolved (7 : Nat))) 10 "TIMEOUT" =
      Settled.rejected (timeoutError "TIMEOUT") ∧
    withTimeout (AsyncOp.pending : AsyncOp Nat) 50 "TIMEOUT" =
      Settled.rejected (timeoutError "TIMEOUT") :=
  ⟨by decide,
   (withTimeout_spec Nat 50 "TIMEOUT" (by decide)).1 5 42 (by decide),
   (withTimeout_spec Nat 50 "TIMEOUT" (by decide)).2.1 5 ⟨"boom"⟩ (by decide),
   (withTimeout_spec Nat 10 "TIMEOUT" (by decide)).2.2.1 50 (Settled.resolved 7) (by decide),
   (withTimeout_spec Nat 50 "TIMEOUT" (by decide)).2.2.2⟩

/-- Claim C7 (counterexample): with deadline 0 and an operation that is
already settled when the guard is invoked, the guard resolves with the
operation's value — its `.then` reaction is a microtask and runs before the
0 ms timer macrotask — so the claimed unconditional timeout does not happen. -/
theorem withTimeout_nonpositive_cex :
    withTimeout (AsyncOp.settled (Settled.resolved (42 : Nat))) 0 "TIMEOUT" =
      Settled.resolved 42 ∧
    Settled.resolved (42 : Nat) ≠ Settled.rejected (timeoutError "TIMEOUT") := by
  exact ⟨rfl, by decide⟩

/-- Claim C7 (amended): for every deadline at most 0, the guard rejects with
the timeout error for an operation that never settles or settles at any timer
tick after the first; but an operation already settled at call time, or
settling at the very first timer tick, still propagates its own result — the
code schedules a real `setTimeout` (clamped to 0 ms) instead of rejecting
synchronously. -/
theorem withTimeout_nonpositive (T : Type) (ms : Int) (label : String) (hms : ms ≤ 0) :
    withTimeout (AsyncOp.pending : AsyncOp T) ms label =
      Settled.rejected (timeoutError label) ∧
    (∀ (t : Nat) (r : Settled T), 0 < t →
        withTimeout (AsyncOp.settlesAt t r) ms label =
          Settled.rejected (timeoutError label)) ∧
    (∀ r : Settled T, withTimeout (AsyncOp.settled r) ms label = r) ∧
    (∀ r : Settled T, withTimeout (AsyncOp.settlesAt 0 r) ms label = r) := by
  refine ⟨rfl, ?_, fun r => rfl, ?_⟩
  · intro t r ht
    simp only [withTimeout, effectiveDelay]
    rw [if_neg (by omega)]
  · intro r
    simp only [withTimeout, effectiveDelay]
    rw [if_pos (by omega)]

/-- Witness for the amended C7 theorem at deadline -5. -/
theorem withTimeout_nonpositive_witness :
    (-5 : Int) ≤ 0 ∧
    withTimeout (AsyncOp.pending : AsyncOp Nat) (-5) "TIMEOUT" =
      Settled.rejected (timeoutError "TIMEOUT") ∧
    withTimeout (AsyncOp.settlesAt 3 (Settled.resolved (1 : Nat))) (-5) "TIMEOUT" =
      Settled.rejected (timeoutError "TIMEOUT") ∧
    withTimeout (AsyncOp.settled (Settled.resolved (1 : Nat))) (-5) "TIMEOUT" =
      Settled.resolved 1 :=
  ⟨by decide,
   (withTimeout_nonpositive Nat (-5) "TIMEOUT" (by decide)).1,
   (withTimeout_nonpositive Nat (-5) "TIMEOUT" (by decide)).2.1 3 _ (by decide),
   (withTimeout_nonpositive Nat (-5) "TIMEOUT" (by decide)).2.2.1 _⟩

/-- Claim C8: the batch preloader partitions its paths exactly by each load's
individual outcome — `success` is the sublist of paths whose guarded preload
succeeds, `failed` the sublist of those whose preload fails, and their lengths
sum to the input length — and, concretely, with three loads of which one times
out it reports two successes and one failure.  The embedding of
`Promise.allSettled` is a total function: no individual failure rejects the
batch as a whole. -/
theorem batch_partial_failure :
    (∀ (env : PreloadEnv) (paths : List String) (tms : Int) (apf : Bool) (s : BootState),
        (batchPreloadGLTF env paths tms apf s).1.1 =
          paths.filter (fun p => safePreloadOk (env p) tms) ∧
        (batchPreloadGLTF env paths tms apf s).1.2 =
          paths.filter (fun p => !(safePreloadOk (env p) tms)) ∧
        (batchPreloadGLTF env paths tms apf s).1.1.length +
            (batchPreloadGLTF env paths tms apf s).1.2.length = paths.length) ∧
    (batchPreloadGLTF
        (fun p => if p = "b" then AsyncOp.pending else AsyncOp.settled (Settled.resolved ()))
        ["a", "b", "c"] 5000 true bootInit).1 = (["a", "c"], ["b"]) := by
  constructor
  · intro env paths tms apf s
    obtain ⟨h1, h2⟩ := batchCore_partition env tms paths s
    refine ⟨?_, ?_, ?_⟩
    · simpa [batchPreloadGLTF] using h1
    · simpa [batchPreloadGLTF] using h2
    · have := length_filter_bool_split (fun p => safePreloadOk (env p) tms) paths
      simp [batchPreloadGLTF, h1, h2]
      omega
  · decide

/-- Claim C6 (code bug, evaluated): the main-object and decorative counts do
satisfy the safe-mode ≤ low-power ≤ normal chain for every device, but the
bubble count ignores `safeMode` entirely: under safe mode on a normal device
it stays at 150, exceeding the 30 bubbles of a low-power device without safe
mode, violating the claimed field-wise chain. -/
theorem bubble_count_ignores_safe_mode :
    (∀ lp im : Bool,
        mainObjectCount true lp im ≤ mainObjectCount false true im ∧
        mainObjectCount false true im ≤ mainObjectCount false false false ∧
        decorativeCount true lp im ≤ decorativeCount false true im ∧
        decorativeCount false true im ≤ decorativeCount false false false) ∧
    bubbleCount false false = 150 ∧
    bubbleCount true false = 30 ∧
    ¬ (bubbleCount false false ≤ bubbleCount true false) := by
  decide

/-- Claim C9: when any stage of the WebGL capability probe fails, the boot
state receives exactly the failure update `{isBooting = false, bootError =
WEBGL_FAIL, safeMode = true}`; when the whole probe passes, only
`setBooting(false)` runs, leaving `bootError` and `safeMode` untouched. -/
theorem webgl_probe_outcome (p : ProbeInput) (s : BootState) :
    (probeOk p = false →
        handleCanvasCreated p s = ⟨false, some BootErrKind.WEBGL_FAIL, true⟩) ∧
    (probeOk p = true →
        handleCanvasCreated p s = { s with isBooting := false }) := by
  obtain ⟨g, c, t, cam⟩ := p
  obtain ⟨sb, se, ss⟩ := s
  cases g <;> cases c <;> cases t <;> cases cam <;>
    simp [probeOk, handleCanvasCreated, failBoot, setBooting, setError, setSafe]

/-- Witness for the C9 theorem: a probe with no WebGL object fails into
`WEBGL_FAIL` safe mode; a fully valid probe completes the boot with no error
recorded. -/
theorem webgl_probe_outcome_witness :
    probeOk ⟨false, true, false, true⟩ = false ∧
    handleCanvasCreated ⟨false, true, false, true⟩ bootInit =
      ⟨false, some BootErrKind.WEBGL_FAIL, true⟩ ∧
    probeOk ⟨true, true, false, true⟩ = true ∧
    handleCanvasCreated ⟨true, true, false, true⟩ bootInit =
      { bootInit with isBooting := false } :=
  ⟨rfl, (webgl_probe_outcome ⟨false, true, false, true⟩ bootInit).1 rfl,
   rfl, (webgl_probe_outcome ⟨true, true, false, true⟩ bootInit).2 rfl⟩

/-- Claim C10 (counterexample): the TypeScript `retryBoot` re-runs
`initializeBoot`, whose protocol check sets `protocolWarning` when the page is
served from `file:`; on a state with `protocolWarning = false` the field
therefore changes, so `retryBoot` does not leave every non-boot field
untouched. -/
theorem retry_frame_cex :
    (retryBootTS true
        (⟨false, some BootErrKind.BOOT_TIMEOUT, true, false, 0, false, false,
          none, none, true, false, false, false, false, 1234, true,
          Theme.default⟩ : AppState Unit)).protocolWarning ≠
      (⟨false, some BootErrKind.BOOT_TIMEOUT, true, false, 0, false, false,
          none, none, true, false, false, false, false, 1234, true,
          Theme.default⟩ : AppState Unit).protocolWarning := by
  decide

/-- Claim C10 (amended): the JavaScript `retryBoot` modifies exactly the three
boot fields and leaves the other fourteen fields unchanged; the TypeScript
`retryBoot` does the same except that it additionally ors `protocolWarning`
with the `file:`-protocol test performed by the `initializeBoot` it calls. -/
theorem retry_frame (Obj : Type) (s : AppState Obj) (pf : Bool) :
    ((retryBootJS s).isBooting = true ∧
     (retryBootJS s).bootError = none ∧
     (retryBootJS s).safeMode = false ∧
     (retryBootJS s).protocolWarning = s.protocolWarning ∧
     (retryBootJS s).depth = s.depth ∧
     (retryBootJS s).isDiving = s.isDiving ∧
     (retryBootJS s).canResurface = s.canResurface ∧
     (retryBootJS s).activePanel = s.activePanel ∧
     (retryBootJS s).hoveredObject = s.hoveredObject ∧
     (retryBootJS s).showUI = s.showUI ∧
     (retryBootJS s).welcomeMessageShown = s.welcomeMessageShown ∧
     (retryBootJS s).lowPowerMode = s.lowPowerMode ∧
     (retryBootJS s).prefersReducedMotion = s.prefersReducedMotion ∧
     (retryBootJS s).isMobile = s.isMobile ∧
     (retryBootJS s).seed = s.seed ∧
     (retryBootJS s).objectsVisible = s.objectsVisible ∧
     (retryBootJS s).theme = s.theme) ∧
    ((retryBootTS pf s).isBooting = true ∧
     (retryBootTS pf s).bootError = none ∧
     (retryBootTS pf s).safeMode = false ∧
     (retryBootTS pf s).protocolWarning = (pf || s.protocolWarning) ∧
     (retryBootTS pf s).depth = s.depth ∧
     (retryBootTS pf s).isDiving = s.isDiving ∧
     (retryBootTS pf s).canResurface = s.canResurface ∧
     (retryBootTS pf s).activePanel = s.activePanel ∧
     (retryBootTS pf s).hoveredObject = s.hoveredObject ∧
     (retryBootTS pf s).showUI = s.showUI ∧
     (retryBootTS pf s).welcomeMessageShown = s.welcomeMessageShown ∧
     (retryBootTS pf s).lowPowerMode = s.lowPowerMode ∧
     (retryBootTS pf s).prefersReducedMotion = s.prefersReducedMotion ∧
     (retryBootTS pf s).isMobile = s.isMobile ∧
     (retryBootTS pf s).seed = s.seed ∧
     (retryBootTS pf s).objectsVisible = s.objectsVisible ∧
     (retryBootTS pf s).theme = s.theme) := by
  constructor
  · exact ⟨rfl, rfl, rfl, rfl, rfl, rfl, rfl, rfl, rfl, rfl, rfl, rfl, rfl, rfl, rfl, rfl, rfl⟩
  · cases pf <;> simp [retryBootTS, initializeBootTS]

end OceanBoot
